import Mathlib

/-!
Verification of the GraphFormatter repository (a Dash application for
interactive chart configuration) against its natural-language
specification.  The Python source is shallowly embedded: dynamic Python
values become the inductive type PyVal, dictionaries become ordered
association lists (Python dictionaries preserve insertion order), and
code that can raise an exception returns an Option, with Option.none
standing for the raised exception.
-/

namespace GraphFormatter

/-- A dynamic Python value as it occurs in the configuration tree, in
Dash component values and in the trace-style store.  Python floats that
occur in the source are integral (1.0, 2, 8, 0, 130, 100) and are never
computed with, so numbers are carried as integers. -/
inductive PyVal where
  | null : PyVal
  | bool (b : Bool) : PyVal
  | num (n : Int) : PyVal
  | str (s : String) : PyVal
  | list (xs : List PyVal) : PyVal
  | dict (kvs : List (String × PyVal)) : PyVal

/-- A settings section: ordered field name to value map. -/
abbrev SettingsSection := List (String × PyVal)

/-- A settings configuration: ordered section name to section map.  Both
the schema (with default values) and the resolved settings have this
shape. -/
abbrev Config := List (String × SettingsSection)

/-- A per-trace style record, as stored in the trace-properties store. -/
abbrev StyleDict := List (String × PyVal)

/-- The trace style store: series identifier to style record. -/
abbrev Store := List (String × StyleDict)

/-- Ordered dictionary lookup, Python d.get(k) returning None as
Option.none absence. -/
def dictGetOpt (k : String) (d : List (String × PyVal)) : Option PyVal :=
  (d.find? (fun kv => kv.1 == k)).map (fun kv => kv.2)

/-- Python d.get(k, default). -/
def dictGetD (k : String) (default : PyVal) (d : List (String × PyVal)) : PyVal :=
  (dictGetOpt k d).getD default

/-- Whether a value is the Python None, the test v is None. -/
def isNull : PyVal → Bool
  | PyVal.null => true
  | _ => false

/-- Python truthiness of a value, bool(v). -/
def pyTruthy : PyVal → Bool
  | PyVal.null => false
  | PyVal.bool b => b
  | PyVal.num n => n != 0
  | PyVal.str s => s != ""
  | PyVal.list xs => !xs.isEmpty
  | PyVal.dict kvs => !kvs.isEmpty

/-- Whether pat occurs as a substring of s (Python pat in s). -/
def strContains (s pat : String) : Bool :=
  (List.range (s.length + 1)).any (fun i => pat.toList.isPrefixOf (s.toList.drop i))

/-- Python v == lit for a string literal lit: true only when v is a
string equal to lit (Python equality across types is False here). -/
def isStrEq (v : PyVal) (s : String) : Bool :=
  match v with
  | PyVal.str t => t == s
  | _ => false

/-- Python membership test for the marker string, marker in v: substring
test on strings, element test on lists, key test on dictionaries, and a
TypeError (Option.none) on null, booleans and numbers. -/
def pyContains (marker : String) : PyVal → Option Bool
  | PyVal.str s => some (strContains s marker)
  | PyVal.list xs => some (xs.any (fun x => isStrEq x marker))
  | PyVal.dict kvs => some (kvs.any (fun kv => kv.1 == marker))
  | _ => Option.none

/-- The boolean-field rule of the settings fold, from
src/callbacks/callback_registrar.py line 193 (identical in
src/GraphFormatter.py line 523): the expression on in (input_val or []).
A falsy input gives False, otherwise membership of on in the input. -/
def boolFieldValue (input_val : PyVal) : Option Bool :=
  if pyTruthy input_val then pyContains "on" input_val else some false

/-- How many raw values one schema field consumes in the settings fold:
two for a 2-element-list (range) default, one otherwise.  Read off the
branch structure of update_figure, src/callbacks/callback_registrar.py
lines 190-203. -/
def fieldCount : PyVal → Nat
  | PyVal.list xs => if xs.length == 2 then 2 else 1
  | _ => 1

/-- Raw values consumed by a whole section. -/
def sectionCount (settings : SettingsSection) : Nat :=
  (settings.map (fun kv => fieldCount kv.2)).sum

/-- Raw values consumed by the whole schema. -/
def configCount (config : Config) : Nat :=
  (config.map (fun kv => sectionCount kv.2)).sum

/-- One step of the settings fold of update_figure
(src/callbacks/callback_registrar.py lines 190-203, identical in
src/GraphFormatter.py lines 520-533).  The raw value list is indexed by
the running counter i exactly as the Python code indexes values[i]; an
out-of-range index is an IndexError and a missing hex key in a color
payload is a KeyError, both Option.none. -/
def resolve_setting (setting : String) (default_val : PyVal) (values : List PyVal) (i : Nat) :
    Option (PyVal × Nat) :=
  match values[i]? with
  | Option.none => Option.none
  | some input_val =>
    match default_val with
    | PyVal.bool _ =>
      (boolFieldValue input_val).map (fun b => (PyVal.bool b, i + 1))
    | PyVal.str _ =>
      if strContains setting "color" then
        match input_val with
        | PyVal.dict kvs => (dictGetOpt "hex" kvs).map (fun v => (v, i + 1))
        | v => some (v, i + 1)
      else some (input_val, i + 1)
    | PyVal.list xs =>
      if xs.length == 2 then
        match values[i+1]? with
        | Option.none => Option.none
        | some v1 => some (PyVal.list [input_val, v1], i + 2)
      else some (input_val, i + 1)
    | _ => some (input_val, i + 1)

/-- The settings fold over one section, threading the raw-value index. -/
def resolve_fields (settings : SettingsSection) (values : List PyVal) (i : Nat) :
    Option (SettingsSection × Nat) :=
  match settings with
  | [] => some ([], i)
  | (setting, default_val) :: rest =>
    match resolve_setting setting default_val values i with
    | Option.none => Option.none
    | some (v, i2) =>
      match resolve_fields rest values i2 with
      | Option.none => Option.none
      | some (tail, i3) => some ((setting, v) :: tail, i3)

/-- The settings fold over all sections. -/
def resolve_sections (config : Config) (values : List PyVal) (i : Nat) :
    Option (Config × Nat) :=
  match config with
  | [] => some ([], i)
  | (section_name, settings) :: rest =>
    match resolve_fields settings values i with
    | Option.none => Option.none
    | some (sec, i2) =>
      match resolve_sections rest values i2 with
      | Option.none => Option.none
      | some (tail, i3) => some ((section_name, sec) :: tail, i3)

/-- The Settings Resolver: the fold at the top of update_figure
(src/callbacks/callback_registrar.py lines 186-203) rebuilding
updated_config from the flat raw-value tuple. -/
def resolve_config (config : Config) (values : List PyVal) : Option Config :=
  (resolve_sections config values 0).map (fun p => p.1)

/-- One field of the claimed compositional description of the Settings
Resolver, written from the specification text: a boolean field consumes
one raw value, which must be an absent value or a collection, and
resolves to whether the marker on is present; a color field (string
default whose field name contains color) consumes one raw value and
resolves to the hex entry of a hex-dictionary payload or to the raw
value itself; a 2-element-list field consumes two consecutive raw
values; every other field consumes one raw value unchanged. -/
def specField (setting : String) (default_val : PyVal) (raws : List PyVal) :
    Option (PyVal × List PyVal) :=
  match default_val with
  | PyVal.bool _ =>
    match raws with
    | PyVal.null :: rest => some (PyVal.bool false, rest)
    | PyVal.list xs :: rest => some (PyVal.bool (xs.any (fun x => isStrEq x "on")), rest)
    | _ => Option.none
  | PyVal.str _ =>
    match raws with
    | r :: rest =>
      if strContains setting "color" then
        match r with
        | PyVal.dict kvs => (dictGetOpt "hex" kvs).map (fun v => (v, rest))
        | v => some (v, rest)
      else some (r, rest)
    | [] => Option.none
  | PyVal.list xs =>
    if xs.length == 2 then
      match raws with
      | a :: b :: rest => some (PyVal.list [a, b], rest)
      | _ => Option.none
    else
      match raws with
      | r :: rest => some (r, rest)
      | [] => Option.none
  | _ =>
    match raws with
    | r :: rest => some (r, rest)
    | [] => Option.none

/-- Compositional resolution of one section: fields consume the raw
value list front to back in declared order. -/
def specFields (settings : SettingsSection) (raws : List PyVal) :
    Option (SettingsSection × List PyVal) :=
  match settings with
  | [] => some ([], raws)
  | (setting, default_val) :: rest =>
    match specField setting default_val raws with
    | Option.none => Option.none
    | some (v, raws2) =>
      match specFields rest raws2 with
      | Option.none => Option.none
      | some (tail, raws3) => some ((setting, v) :: tail, raws3)

/-- Compositional resolution of all sections in declared order. -/
def specSections (config : Config) (raws : List PyVal) :
    Option (Config × List PyVal) :=
  match config with
  | [] => some ([], raws)
  | (section_name, settings) :: rest =>
    match specFields settings raws with
    | Option.none => Option.none
    | some (sec, raws2) =>
      match specSections rest raws2 with
      | Option.none => Option.none
      | some (tail, raws3) => some ((section_name, sec) :: tail, raws3)

/-- The claimed compositional description of the Settings Resolver. -/
def specResolve (config : Config) (values : List PyVal) : Option Config :=
  (specSections config values).map (fun p => p.1)

/-! ## Style controls (src/GraphFormatter.py, get_style_controls_for_plot_type) -/

/-- The logical content of the control set returned by
get_style_controls_for_plot_type (src/GraphFormatter.py lines 396-492):
the color picker and opacity slider values, the width input label,
value and visibility, and the dash dropdown value and visibility.  The
function produces no symbol control for any plot type. -/
structure StyleControls where
  color : PyVal
  opacity : PyVal
  width_label : String
  width_value : PyVal
  width_visible : Bool
  dash_value : PyVal
  dash_visible : Bool

/-- get_style_controls_for_plot_type, src/GraphFormatter.py lines
396-492.  current_style.get with defaults, then a branch per plot
type.  The width default is 2 for line and area, 8 for scatter and 0
otherwise, always read from the single key width. -/
def get_style_controls_for_plot_type (plot_type : PyVal) (current_style : StyleDict) :
    StyleControls :=
  let current_color := dictGetD "color" (PyVal.str "#636EFA") current_style
  let current_opacity := dictGetD "opacity" (PyVal.num 1) current_style
  let width_default :=
    if isStrEq plot_type "line" || isStrEq plot_type "area" then PyVal.num 2
    else if isStrEq plot_type "scatter" then PyVal.num 8
    else PyVal.num 0
  let current_width := dictGetD "width" width_default current_style
  let current_dash := dictGetD "dash" (PyVal.str "solid") current_style
  if isStrEq plot_type "line" then
    ⟨current_color, current_opacity, "Line Width", current_width, true, current_dash, true⟩
  else if isStrEq plot_type "bar" then
    ⟨current_color, current_opacity, "Border Width", current_width, true, PyVal.str "solid", false⟩
  else if isStrEq plot_type "scatter" then
    ⟨current_color, current_opacity, "Marker Size", current_width, true, PyVal.str "solid", false⟩
  else if isStrEq plot_type "area" then
    ⟨current_color, current_opacity, "Line Width", current_width, true, current_dash, true⟩
  else
    ⟨current_color, current_opacity, "", current_width, false, current_dash, false⟩

/-! ## Popover state machine (toggle_trace_picker, both variants) -/

/-- The first point of a Plotly click event; curveNumber is absent when
the key is not in the point dictionary. -/
structure ClickPoint where
  curveNumber : Option Nat

/-- A Plotly clickData payload. -/
structure ClickData where
  points : List ClickPoint

/-- The rendered figure as seen through the figure State: falsy
(missing), a dictionary without a data key, or the list of rendered
trace names. -/
inductive FigObj where
  | missing : FigObj
  | noData : FigObj
  | withData (names : List String) : FigObj

/-- A Dash callback output slot: either no_update or a new value. -/
inductive Upd (α : Type) where
  | keep : Upd α
  | set (a : α) : Upd α

/-- The three outputs of toggle_trace_picker: the popover container
style, the style-control children and the selected-trace store. -/
abbrev TPResult := Upd StyleDict × Upd StyleControls × Upd (Option String)

/-- Popover container style when hidden. -/
def noneStyle : StyleDict := [("display", PyVal.str "none")]

/-- Popover container style when shown. -/
def blockStyle : StyleDict :=
  [("display", PyVal.str "block"), ("marginTop", PyVal.str "10px"),
   ("width", PyVal.str "250px")]

/-- trace_properties.get(trace_name, an empty dict), also used when the
store itself is falsy. -/
def storeGet (trace_name : String) (trace_properties : Store) : StyleDict :=
  ((trace_properties.find? (fun kv => kv.1 == trace_name)).map (fun kv => kv.2)).getD []

/-- config.get(section, an empty dict).get(field, default), the
two-level configuration fallback used for the plot type. -/
def configGet2 (config : Config) (section_name field : String) (default : PyVal) : PyVal :=
  dictGetD field default
    (((config.find? (fun kv => kv.1 == section_name)).map (fun kv => kv.2)).getD [])

/-- The plot-type-changed branch of toggle_trace_picker
(src/callbacks/callback_registrar.py lines 130-138, identically
src/GraphFormatter.py lines 647-656 up to component names): while the
popover is open, the selected trace is recomputed as the FIRST key of
the trace-properties store, not the previously selected series, and the
controls are re-derived from the style stored under that first key. -/
def toggle_plot_type_branch (plot_type_trigger : String) (plot_type : Option PyVal)
    (current_style : StyleDict) (trace_properties : Store) (trig : String) : Option TPResult :=
  if trig == plot_type_trigger then
    match dictGetOpt "display" current_style with
    | some (PyVal.str d) =>
      if d == "block" then
        match trace_properties with
        | [] => some (Upd.keep, Upd.keep, Upd.keep)
        | (s0, st0) :: _ =>
          if s0 == "" then some (Upd.keep, Upd.keep, Upd.keep)
          else
            some (Upd.set current_style,
                  Upd.set (get_style_controls_for_plot_type (plot_type.getD PyVal.null) st0),
                  Upd.set (some s0))
      else some (Upd.keep, Upd.keep, Upd.keep)
    | _ => some (Upd.keep, Upd.keep, Upd.keep)
  else some (Upd.keep, Upd.keep, Upd.keep)

/-- toggle_trace_picker of the modular variant,
src/callbacks/callback_registrar.py lines 104-138.  The click branch
guards against a stale curve index (figure falsy, figure without data,
or index at least the trace count) and turns it into a triple of
no_update. -/
def toggle_trace_picker (config : Config) (clickData : Option ClickData)
    (plot_type : Option PyVal) (current_style : StyleDict) (figure_data : FigObj)
    (trace_properties : Store) (trigger : Option String) : Option TPResult :=
  match trigger with
  | Option.none => some (Upd.set current_style, Upd.keep, Upd.keep)
  | some trig =>
    if trig == "trace-properties-close" then
      some (Upd.set noneStyle, Upd.keep, Upd.set Option.none)
    else
      match clickData with
      | some cd =>
        match cd.points with
        | [] => Option.none
        | p :: _ =>
          match p.curveNumber with
          | some curve_idx =>
            match figure_data with
            | FigObj.missing => some (Upd.keep, Upd.keep, Upd.keep)
            | FigObj.noData => some (Upd.keep, Upd.keep, Upd.keep)
            | FigObj.withData names =>
              if names.length ≤ curve_idx then some (Upd.keep, Upd.keep, Upd.keep)
              else
                match names[curve_idx]? with
                | Option.none => Option.none
                | some trace_name =>
                  let current_trace_style := storeGet trace_name trace_properties
                  let pt :=
                    match plot_type with
                    | Option.none => configGet2 config "properties" "plot_type" (PyVal.str "line")
                    | some v => v
                  some (Upd.set blockStyle,
                        Upd.set (get_style_controls_for_plot_type pt current_trace_style),
                        Upd.set (some trace_name))
          | Option.none =>
            toggle_plot_type_branch "properties-plot_type" plot_type current_style
              trace_properties trig
      | Option.none =>
        toggle_plot_type_branch "properties-plot_type" plot_type current_style
          trace_properties trig

/-- toggle_trace_picker of the legacy monolithic variant,
src/GraphFormatter.py lines 623-656.  The click branch has no stale
index guard: a falsy figure is a TypeError, a figure without data is a
KeyError and an index at or past the trace count is an IndexError, all
Option.none. -/
def gf_toggle_trace_picker (config : Config) (clickData : Option ClickData)
    (plot_type : Option PyVal) (current_style : StyleDict) (figure_data : FigObj)
    (trace_properties : Store) (trigger : Option String) : Option TPResult :=
  match trigger with
  | Option.none => some (Upd.set current_style, Upd.keep, Upd.keep)
  | some trig =>
    if trig == "trace-properties-close" then
      some (Upd.set noneStyle, Upd.keep, Upd.set Option.none)
    else
      match clickData with
      | some cd =>
        match cd.points with
        | [] => Option.none
        | p :: _ =>
          match p.curveNumber with
          | some curve_idx =>
            match figure_data with
            | FigObj.missing => Option.none
            | FigObj.noData => Option.none
            | FigObj.withData names =>
              match names[curve_idx]? with
              | Option.none => Option.none
              | some trace_name =>
                let current_trace_style := storeGet trace_name trace_properties
                let pt :=
                  match plot_type with
                  | Option.none => configGet2 config "plot_settings" "type" (PyVal.str "line")
                  | some v => v
                some (Upd.set blockStyle,
                      Upd.set (get_style_controls_for_plot_type pt current_trace_style),
                      Upd.set (some trace_name))
          | Option.none =>
            toggle_plot_type_branch "plot_settings-type" plot_type current_style
              trace_properties trig
      | Option.none =>
        toggle_plot_type_branch "plot_settings-type" plot_type current_style
          trace_properties trig

/-! ## Trace style store update (update_trace_style, modular variant) -/

/-- Python d[k] = v on an ordered dictionary: replace in place when the
key exists, append at the end otherwise. -/
def dictSet (k : String) (v : StyleDict) (d : Store) : Store :=
  match d with
  | [] => [(k, v)]
  | (k2, v2) :: rest =>
    if k2 == k then (k, v) :: rest else (k2, v2) :: dictSet k v rest

/-- The color written by update_trace_style: the expression color[a hex
key] if color else the default hex (line 161).  A truthy non-dictionary
payload is a TypeError and a truthy dictionary without hex a KeyError,
both Option.none. -/
def pickerColorValue (color : PyVal) : Option PyVal :=
  if pyTruthy color then
    match color with
    | PyVal.dict kvs => dictGetOpt "hex" kvs
    | _ => Option.none
  else some (PyVal.str "#636EFA")

/-- The style_data record built by update_trace_style (lines 160-169)
for an already extracted color value: color, opacity, line_width and
marker_size are always written with defaults for null inputs; dash only
for plot types line and area (falsy dash falls back to solid); symbol,
always circle, only for plot type scatter. -/
def style_record (plot_type cv line_width marker_size dash opacity : PyVal) : StyleDict :=
  let base : StyleDict :=
    [("color", cv),
     ("opacity", if isNull opacity then PyVal.num 1 else opacity),
     ("line_width", if isNull line_width then PyVal.num 2 else line_width),
     ("marker_size", if isNull marker_size then PyVal.num 8 else marker_size)]
  let withDash :=
    if isStrEq plot_type "line" || isStrEq plot_type "area" then
      base ++ [("dash", if pyTruthy dash then dash else PyVal.str "solid")]
    else base
  if isStrEq plot_type "scatter" then
    withDash ++ [("symbol", PyVal.str "circle")]
  else withDash

/-- update_trace_style, src/callbacks/callback_registrar.py lines
157-171.  Skips entirely when the selected trace name is falsy.  The
plot type is read from the seed configuration under plot_settings and
type, and the record written for the selected trace is style_record. -/
def update_trace_style (config : Config) (color line_width marker_size dash opacity : PyVal)
    (trace_name : Option String) (data : Store) : Option Store :=
  match trace_name with
  | Option.none => some data
  | some name =>
    if name == "" then some data
    else
    let plot_type := configGet2 config "plot_settings" "type" (PyVal.str "line")
    match pickerColorValue color with
    | Option.none => Option.none
    | some cv =>
      some (dictSet name (style_record plot_type cv line_width marker_size dash opacity) data)

/-! ## Trace factory (create_trace, src/GraphFormatter.py lines 326-394) -/

/-- The tabular data source: row index, ordered column names, and the
column contents.  Column access is modelled as a total function from
the column name, since the application only reads columns selected from
its own table. -/
structure DataFrame where
  index : List Nat
  columns : List String
  col : String → List PyVal

/-- Plotly line sub-dictionary of a scatter trace. -/
structure LineProps where
  color : PyVal
  width : PyVal
  dash : PyVal

/-- Plotly marker sub-dictionary of a scatter trace. -/
structure MarkerProps where
  color : PyVal
  size : PyVal
  line_width : PyVal

/-- The geometry part of one rendered trace: a go.Scatter with a mode,
optional fill and optional line and marker dictionaries, or a go.Bar
with a marker color and border width. -/
inductive TraceGeom where
  | scatter (mode : String) (fill : Option String) (line : Option LineProps)
      (marker : Option MarkerProps) : TraceGeom
  | bar (marker_color : PyVal) (marker_line_width : PyVal) : TraceGeom

/-- One rendered trace: geometry plus the base configuration x, y, name
and opacity. -/
structure TraceSpec where
  geom : TraceGeom
  x : List Nat
  y : List PyVal
  name : String
  opacity : PyVal

/-- Whether the trace uses bar geometry. -/
def TraceSpec.isBarGeom (t : TraceSpec) : Bool :=
  match t.geom with
  | TraceGeom.bar _ _ => true
  | _ => false

/-- The scatter mode of the trace, when it is a scatter trace. -/
def TraceSpec.scatterMode (t : TraceSpec) : Option String :=
  match t.geom with
  | TraceGeom.scatter mode _ _ _ => some mode
  | _ => Option.none

/-- The fill of the trace, when it is a scatter trace with one. -/
def TraceSpec.fillOf (t : TraceSpec) : Option String :=
  match t.geom with
  | TraceGeom.scatter _ fill _ _ => fill
  | _ => Option.none

/-- The line dictionary of the trace, when present. -/
def TraceSpec.lineOf (t : TraceSpec) : Option LineProps :=
  match t.geom with
  | TraceGeom.scatter _ _ line _ => line
  | _ => Option.none

/-- The marker dictionary of a scatter trace, when present. -/
def TraceSpec.markerOf (t : TraceSpec) : Option MarkerProps :=
  match t.geom with
  | TraceGeom.scatter _ _ _ marker => marker
  | _ => Option.none

/-- create_trace, src/GraphFormatter.py lines 326-394.  Dispatches on
the plot type strings line, bar, scatter and area; every other plot
type falls through to the default branch, which builds the same
lines+markers geometry as the line branch.  Style keys are read with
style.get: color has no default (None when absent), the width key
doubles as line width, bar border width and marker size with defaults
2, 0 and 8 respectively, dash defaults to solid and opacity to 1.0.
The area branch reads the first column name, an IndexError (here
Option.none) when the frame has no columns. -/
def create_trace (df : DataFrame) (col : String) (plot_type : PyVal) (style : StyleDict) :
    Option TraceSpec :=
  let x := df.index
  let y := df.col col
  let opacity := dictGetD "opacity" (PyVal.num 1) style
  let color := dictGetD "color" PyVal.null style
  if isStrEq plot_type "line" then
    some ⟨TraceGeom.scatter "lines+markers" Option.none
            (some ⟨color, dictGetD "width" (PyVal.num 2) style,
                   dictGetD "dash" (PyVal.str "solid") style⟩) Option.none,
          x, y, col, opacity⟩
  else if isStrEq plot_type "bar" then
    some ⟨TraceGeom.bar color (dictGetD "width" (PyVal.num 0) style), x, y, col, opacity⟩
  else if isStrEq plot_type "scatter" then
    some ⟨TraceGeom.scatter "markers" Option.none Option.none
            (some ⟨color, dictGetD "width" (PyVal.num 8) style,
                   dictGetD "line_width" (PyVal.num 0) style⟩),
          x, y, col, opacity⟩
  else if isStrEq plot_type "area" then
    match df.columns.head? with
    | Option.none => Option.none
    | some c0 =>
      some ⟨TraceGeom.scatter "lines"
              (some (if col == c0 then "tozeroy" else "tonexty"))
              (some ⟨color, dictGetD "width" (PyVal.num 2) style,
                     dictGetD "dash" (PyVal.str "solid") style⟩) Option.none,
            x, y, col, opacity⟩
  else
    some ⟨TraceGeom.scatter "lines+markers" Option.none
            (some ⟨color, dictGetD "width" (PyVal.num 2) style,
                   dictGetD "dash" (PyVal.str "solid") style⟩) Option.none,
          x, y, col, opacity⟩

/-! ## Figure builder (update_figure, src/callbacks/callback_registrar.py
lines 174-280) -/

/-- Python str(v) as used inside the annotation f-strings.  Annotation
text fields are strings in every shipped configuration; the rendering
of container values is abbreviated to a tag, since no claim depends on
it. -/
def pyStr : PyVal → String
  | PyVal.null => "None"
  | PyVal.bool true => "True"
  | PyVal.bool false => "False"
  | PyVal.num n => toString n
  | PyVal.str s => s
  | PyVal.list _ => "<list>"
  | PyVal.dict _ => "<dict>"

/-- One layout annotation: the formatted text, position, anchors, font
size and optional font color (x and y references are the fixed string
paper and showarrow is always False in the source, so they carry no
information). -/
structure Annot where
  text : PyVal
  x : PyVal
  y : PyVal
  xanchor : PyVal
  yanchor : PyVal
  fontsize : PyVal
  fontcolor : Option PyVal

/-- The optional horizontal reference line above the plot. -/
structure TopLine where
  y : PyVal
  x0 : PyVal
  x1 : PyVal
  color : PyVal
  width : PyVal

/-- The layout part of the produced figure. -/
structure Layout where
  xaxis : SettingsSection
  yaxis : SettingsSection
  width : PyVal
  height : PyVal
  paper_bgcolor : PyVal
  plot_bgcolor : PyVal
  margin : SettingsSection
  annotations : List Annot
  legend : SettingsSection
  top_line : Option TopLine
  barmode : Option String

/-- The chart specification handed to the renderer. -/
structure Figure where
  data : List TraceSpec
  layout : Layout

/-- Required two-level lookup updated_config[section][field], a KeyError
(Option.none) when either level is missing. -/
def configIndex2 (config : Config) (section_name field : String) : Option PyVal :=
  match (config.find? (fun kv => kv.1 == section_name)).map (fun kv => kv.2) with
  | Option.none => Option.none
  | some sec => dictGetOpt field sec

/-- updated_config.get(section, an empty dict). -/
def configSectionD (config : Config) (section_name : String) : SettingsSection :=
  ((config.find? (fun kv => kv.1 == section_name)).map (fun kv => kv.2)).getD []

/-- The barmode chosen by update_figure
(src/callbacks/callback_registrar.py lines 275-278): stack for
bar_stacked, group for bar_grouped, nothing otherwise. -/
def barmode_for (plot_type : PyVal) : Option String :=
  if isStrEq plot_type "bar_stacked" then some "stack"
  else if isStrEq plot_type "bar_grouped" then some "group"
  else Option.none

/-- The title annotation, built from the title section
(src/callbacks/callback_registrar.py lines 224-234); every field access
is a required KeyError-raising lookup. -/
def titleAnnot (uc : Config) : Option Annot :=
  match configIndex2 uc "title" "text", configIndex2 uc "title" "subtitle",
        configIndex2 uc "title" "x", configIndex2 uc "title" "y",
        configIndex2 uc "title" "xanchor", configIndex2 uc "title" "yanchor",
        configIndex2 uc "title" "fontsize" with
  | some tx, some sub, some x, some y, some xa, some ya, some fs =>
    some ⟨PyVal.str ("<b>" ++ pyStr tx ++ "</b><br><sup>" ++ pyStr sub ++ "</sup>"),
          x, y, xa, ya, fs, Option.none⟩
  | _, _, _, _, _, _, _ => Option.none

/-- The description annotation (lines 235-245): raw text plus a font
color. -/
def descriptionAnnot (uc : Config) : Option Annot :=
  match configIndex2 uc "description" "text", configIndex2 uc "description" "x",
        configIndex2 uc "description" "y", configIndex2 uc "description" "xanchor",
        configIndex2 uc "description" "yanchor", configIndex2 uc "description" "fontsize",
        configIndex2 uc "description" "color" with
  | some tx, some x, some y, some xa, some ya, some fs, some c =>
    some ⟨tx, x, y, xa, ya, fs, some c⟩
  | _, _, _, _, _, _, _ => Option.none

/-- The footnote annotation (lines 246-256): italic text plus a font
color. -/
def footnoteAnnot (uc : Config) : Option Annot :=
  match configIndex2 uc "footnote" "text", configIndex2 uc "footnote" "x",
        configIndex2 uc "footnote" "y", configIndex2 uc "footnote" "xanchor",
        configIndex2 uc "footnote" "yanchor", configIndex2 uc "footnote" "fontsize",
        configIndex2 uc "footnote" "color" with
  | some tx, some x, some y, some xa, some ya, some fs, some c =>
    some ⟨PyVal.str ("<i>" ++ pyStr tx ++ "</i>"), x, y, xa, ya, fs, some c⟩
  | _, _, _, _, _, _, _ => Option.none

/-- The optional top line (lines 261-273): the enabled flag is a
required lookup; when truthy, the five line fields are required
lookups. -/
def topLineFor (uc : Config) : Option (Option TopLine) :=
  match configIndex2 uc "top-line" "enabled" with
  | Option.none => Option.none
  | some en =>
    if pyTruthy en then
      match configIndex2 uc "top-line" "y", configIndex2 uc "top-line" "x0",
            configIndex2 uc "top-line" "x1", configIndex2 uc "top-line" "color",
            configIndex2 uc "top-line" "width" with
      | some y, some x0, some x1, some c, some w => some (some ⟨y, x0, x1, c, w⟩)
      | _, _, _, _, _ => Option.none
    else some Option.none

/-- The trace list of the figure: one trace per selected column, styled
from the store (lines 209-212). -/
def tracesFor (df : DataFrame) (plot_type : PyVal) (trace_properties : Store)
    (selected_columns : List String) : Option (List TraceSpec) :=
  selected_columns.mapM (fun c => create_trace df c plot_type (storeGet c trace_properties))

/-- The default margin dict(t=130, b=100) used when the margin section
is absent. -/
def defaultMargin : SettingsSection := [("t", PyVal.num 130), ("b", PyVal.num 100)]

/-- updated_config.get("margin", dict(t=130, b=100)). -/
def marginFor (uc : Config) : SettingsSection :=
  match (uc.find? (fun kv => kv.1 == "margin")).map (fun kv => kv.2) with
  | Option.none => defaultMargin
  | some m => m

/-- The figure-building part of update_figure
(src/callbacks/callback_registrar.py lines 205-280), a function of the
resolved settings, the selected columns, the trace style store and the
data source. -/
def buildFigure (uc : Config) (selected_columns : List String) (trace_properties : Store)
    (df : DataFrame) : Option Figure :=
  let plot_type := configGet2 uc "properties" "plot_type" (PyVal.str "line")
  match tracesFor df plot_type trace_properties selected_columns with
  | Option.none => Option.none
  | some traces =>
    match configIndex2 uc "properties" "width", configIndex2 uc "properties" "height",
          configIndex2 uc "properties" "paper_bgcolor",
          configIndex2 uc "properties" "plot_bgcolor" with
    | some w, some h, some pb, some plb =>
      match titleAnnot uc, descriptionAnnot uc, footnoteAnnot uc with
      | some a1, some a2, some a3 =>
        match topLineFor uc with
        | Option.none => Option.none
        | some tl =>
          some ⟨traces,
                ⟨configSectionD uc "xaxis", configSectionD uc "yaxis", w, h, pb, plb,
                 marginFor uc, [a1, a2, a3], configSectionD uc "legend", tl,
                 barmode_for plot_type⟩⟩
      | _, _, _ => Option.none
    | _, _, _, _ => Option.none

/-- update_figure, src/callbacks/callback_registrar.py lines 183-280:
the settings fold followed by the figure build.  Returns the figure and
the stored updated configuration. -/
def update_figure (config : Config) (values : List PyVal) (selected_columns : List String)
    (trace_properties : Store) (df : DataFrame) : Option (Figure × Config) :=
  match resolve_config config values with
  | Option.none => Option.none
  | some uc =>
    match buildFigure uc selected_columns trace_properties df with
    | Option.none => Option.none
    | some fig => some (fig, uc)

/-! ## Trace style upload (load_trace_styles,
src/callbacks/callback_registrar.py lines 312-335) -/

/-- The outcome of the upload callback on the trace-properties store:
keep the previous store (PreventUpdate) or replace it wholesale. -/
inductive UploadResult where
  | keepStore : UploadResult
  | replace (v : PyVal) : UploadResult

/-- Split a character list at every comma, the behaviour of the Python
str.split with a comma separator. -/
def splitSegs : List Char → List (List Char)
  | [] => [[]]
  | c :: rest =>
    let segs := splitSegs rest
    if c = Char.ofNat 44 then [] :: segs
    else
      match segs with
      | [] => [[c]]
      | seg :: more => (c :: seg) :: more

/-- Python contents.split on a comma. -/
def commaSplit (s : String) : List String :=
  (splitSegs s.toList).map (fun cs => String.mk cs)

/-- load_trace_styles, src/callbacks/callback_registrar.py lines
322-335, parameterized over the base64 decoder and the JSON parser
(library collaborators).  A missing upload raises PreventUpdate (keep);
content that does not split into exactly two comma parts is an uncaught
ValueError and a base64 failure an uncaught binascii error, both
Option.none, which also leaves the store unchanged; a JSON parse
failure is caught and raises PreventUpdate; ANY successfully decoded
JSON value, object or not, is returned and replaces the store
wholesale. -/
def load_trace_styles (b64decode : String → Option String)
    (jsonLoads : String → Option PyVal) (contents : Option String) : Option UploadResult :=
  match contents with
  | Option.none => some UploadResult.keepStore
  | some s =>
    match commaSplit s with
    | [_, content_string] =>
      match b64decode content_string with
      | Option.none => Option.none
      | some decoded =>
        match jsonLoads decoded with
        | Option.none => some UploadResult.keepStore
        | some v => some (UploadResult.replace v)
    | _ => Option.none

/-- The trace-properties store contents after the upload callback ran:
only a replace outcome changes it; PreventUpdate and an uncaught
exception both leave the prior store in place. -/
def storeAfter (prior : PyVal) (result : Option UploadResult) : PyVal :=
  match result with
  | some (UploadResult.replace v) => v
  | _ => prior

/-! ## Data provider (src/data/data_provider.py) -/

/-- Column names of the generated dummy frame, Series A through the
requested count. -/
def dummy_column_names (columns : Nat) : List String :=
  (List.range columns).map (fun i => "Series " ++ String.mk [Char.ofNat (65 + i)])

/-- The dummy frame built by DataProvider.__generate_dummy_data
(src/data/data_provider.py lines 14-27): the given shape with the
Series column names.  The cell values are numpy random draws, abstracted
here as zeros, since load_data discards the frame. -/
def generate_dummy_data (rows columns : Nat) : DataFrame :=
  ⟨List.range rows, dummy_column_names columns,
   fun c => if c ∈ dummy_column_names columns then List.replicate rows (PyVal.num 0) else []⟩

/-- The empty frame pd.DataFrame(): zero rows, zero columns. -/
def emptyFrame : DataFrame := ⟨[], [], fun _ => []⟩

/-- DataProvider.load_data, src/data/data_provider.py lines 29-45,
parameterized over the CSV reader (Option.none models any exception
from pd.read_csv).  On failure the function generates and reports a
dummy frame but returns the empty frame pd.DataFrame(), discarding the
dummy data. -/
def load_data (readCsv : String → Option DataFrame) (file_path : String) : DataFrame :=
  match readCsv file_path with
  | some df => df
  | Option.none =>
    let _data := generate_dummy_data 50 10
    emptyFrame

/-! ## Concrete instances used by witnesses and counterexamples -/

/-- A small concrete data frame with two columns. -/
def dfW : DataFrame :=
  ⟨[0, 1], ["Series A", "Series B"],
   fun c =>
     if c == "Series A" then [PyVal.num 5, PyVal.num 7]
     else if c == "Series B" then [PyVal.num 3, PyVal.num 4]
     else []⟩

/-- A small settings schema exercising every field kind: enum string,
number, color string, boolean and range. -/
def cfgW : Config :=
  [("properties",
    [("plot_type", PyVal.str "line"), ("width", PyVal.num 800),
     ("paper_bgcolor", PyVal.str "#ffffff")]),
   ("top-line",
    [("enabled", PyVal.bool true), ("xlimits", PyVal.list [PyVal.num 0, PyVal.num 1])])]

/-- Raw values for cfgW: one per scalar field, two for the range. -/
def valsW : List PyVal :=
  [PyVal.str "bar_grouped", PyVal.num 640, PyVal.dict [("hex", PyVal.str "#aabbcc")],
   PyVal.list [PyVal.str "on"], PyVal.num 0, PyVal.num 2]

/-- The resolved settings expected for cfgW and valsW. -/
def rW : Config :=
  [("properties",
    [("plot_type", PyVal.str "bar_grouped"), ("width", PyVal.num 640),
     ("paper_bgcolor", PyVal.str "#aabbcc")]),
   ("top-line",
    [("enabled", PyVal.bool true), ("xlimits", PyVal.list [PyVal.num 0, PyVal.num 2])])]

/-- A one-boolean-field schema. -/
def cfgB : Config := [("s", [("flag", PyVal.bool true)])]

/-- An identity base64 decoder, standing for a payload that is its own
encoding. -/
def b64id : String → Option String := fun s => some s

/-- A concrete JSON parser fragment: decodes the payload 42 to the JSON
number 42 and fails on everything else. -/
def parse42 : String → Option PyVal :=
  fun s => if s == "42" then some (PyVal.num 42) else Option.none

/-! ## List indexing helpers -/

theorem drop_eq_cons_get {α : Type} (values : List α) (i : Nat) (a : α) (rest : List α)
    (h : values.drop i = a :: rest) : values[i]? = some a ∧ values.drop (i + 1) = rest := by
  induction values generalizing i with
  | nil => simp at h
  | cons v vs ih =>
    cases i with
    | zero =>
      simp only [List.drop_zero] at h
      cases h
      exact ⟨by simp, rfl⟩
    | succ n => simpa using ih n h

theorem get?_some_lt {α : Type} (values : List α) (i : Nat) (a : α)
    (h : values[i]? = some a) : i < values.length := by
  induction values generalizing i with
  | nil => simp at h
  | cons v vs ih =>
    cases i with
    | zero => simp
    | succ n => exact Nat.succ_lt_succ (ih n (by simpa using h))

theorem get?_append_left {α : Type} (values extra : List α) (i : Nat)
    (h : i < values.length) : (values ++ extra)[i]? = values[i]? := by
  induction values generalizing i with
  | nil => simp at h
  | cons v vs ih =>
    cases i with
    | zero => simp
    | succ n => simpa using ih n (Nat.lt_of_succ_lt_succ h)

/-! ## The settings fold agrees with the compositional description -/

theorem boolFieldValue_list (xs : List PyVal) :
    boolFieldValue (PyVal.list xs) = some (xs.any (fun x => isStrEq x "on")) := by
  cases xs with
  | nil => rfl
  | cons x xs => rfl

theorem resolve_setting_of_specField (setting : String) (d : PyVal) (values : List PyVal)
    (i : Nat) (v : PyVal) (rest : List PyVal)
    (h : specField setting d (values.drop i) = some (v, rest)) :
    resolve_setting setting d values i = some (v, i + fieldCount d)
    ∧ rest = values.drop (i + fieldCount d) := by
  cases d with
  | bool b =>
    cases hd : values.drop i with
    | nil => rw [hd] at h; simp [specField] at h
    | cons a tail =>
      rw [hd] at h
      obtain ⟨hget, hdrop⟩ := drop_eq_cons_get values i a tail hd
      cases a with
      | null =>
        simp [specField] at h
        obtain ⟨hv, hr⟩ := h
        subst hv; subst hr
        exact ⟨by simp [resolve_setting, hget, boolFieldValue, pyTruthy, fieldCount],
               hdrop.symm⟩
      | list xs =>
        simp [specField] at h
        obtain ⟨hv, hr⟩ := h
        subst hv; subst hr
        exact ⟨by simp [resolve_setting, hget, boolFieldValue_list, fieldCount], hdrop.symm⟩
      | bool b2 => simp [specField] at h
      | num n => simp [specField] at h
      | str s => simp [specField] at h
      | dict kvs => simp [specField] at h
  | str s =>
    cases hd : values.drop i with
    | nil => rw [hd] at h; simp [specField] at h
    | cons a tail =>
      rw [hd] at h
      obtain ⟨hget, hdrop⟩ := drop_eq_cons_get values i a tail hd
      cases hcol : strContains setting "color" with
      | false =>
        simp [specField, hcol] at h
        obtain ⟨hv, hr⟩ := h
        subst hv; subst hr
        exact ⟨by simp [resolve_setting, hget, hcol, fieldCount], hdrop.symm⟩
      | true =>
        cases a with
        | dict kvs =>
          simp [specField, hcol] at h
          cases hx : dictGetOpt "hex" kvs with
          | none => rw [hx] at h; simp at h
          | some w =>
            rw [hx] at h
            simp at h
            obtain ⟨hv, hr⟩ := h
            subst hv; subst hr
            exact ⟨by simp [resolve_setting, hget, hcol, hx, fieldCount], hdrop.symm⟩
        | null =>
          simp [specField, hcol] at h
          obtain ⟨hv, hr⟩ := h
          subst hv; subst hr
          exact ⟨by simp [resolve_setting, hget, hcol, fieldCount], hdrop.symm⟩
        | bool b2 =>
          simp [specField, hcol] at h
          obtain ⟨hv, hr⟩ := h
          subst hv; subst hr
          exact ⟨by simp [resolve_setting, hget, hcol, fieldCount], hdrop.symm⟩
        | num n =>
          simp [specField, hcol] at h
          obtain ⟨hv, hr⟩ := h
          subst hv; subst hr
          exact ⟨by simp [resolve_setting, hget, hcol, fieldCount], hdrop.symm⟩
        | str s2 =>
          simp [specField, hcol] at h
          obtain ⟨hv, hr⟩ := h
          subst hv; subst hr
          exact ⟨by simp [resolve_setting, hget, hcol, fieldCount], hdrop.symm⟩
        | list xs =>
          simp [specField, hcol] at h
          obtain ⟨hv, hr⟩ := h
          subst hv; subst hr
          exact ⟨by simp [resolve_setting, hget, hcol, fieldCount], hdrop.symm⟩
  | num n =>
    cases hd : values.drop i with
    | nil => rw [hd] at h; simp [specField] at h
    | cons a tail =>
      rw [hd] at h
      obtain ⟨hget, hdrop⟩ := drop_eq_cons_get values i a tail hd
      simp [specField] at h
      obtain ⟨hv, hr⟩ := h
      subst hv; subst hr
      exact ⟨by simp [resolve_setting, hget, fieldCount], hdrop.symm⟩
  | null =>
    cases hd : values.drop i with
    | nil => rw [hd] at h; simp [specField] at h
    | cons a tail =>
      rw [hd] at h
      obtain ⟨hget, hdrop⟩ := drop_eq_cons_get values i a tail hd
      simp [specField] at h
      obtain ⟨hv, hr⟩ := h
      subst hv; subst hr
      exact ⟨by simp [resolve_setting, hget, fieldCount], hdrop.symm⟩
  | dict kvs =>
    cases hd : values.drop i with
    | nil => rw [hd] at h; simp [specField] at h
    | cons a tail =>
      rw [hd] at h
      obtain ⟨hget, hdrop⟩ := drop_eq_cons_get values i a tail hd
      simp [specField] at h
      obtain ⟨hv, hr⟩ := h
      subst hv; subst hr
      exact ⟨by simp [resolve_setting, hget, fieldCount], hdrop.symm⟩
  | list xs =>
    cases hlen : (xs.length == 2) with
    | true =>
      cases hd : values.drop i with
      | nil => rw [hd] at h; simp [specField, hlen] at h
      | cons a tail =>
        cases tail with
        | nil => rw [hd] at h; simp [specField, hlen] at h
        | cons b tail2 =>
          rw [hd] at h
          simp [specField, hlen] at h
          obtain ⟨hv, hr⟩ := h
          subst hv; subst hr
          obtain ⟨hget, hdrop⟩ := drop_eq_cons_get values i a (b :: tail2) hd
          obtain ⟨hget2, hdrop2⟩ := drop_eq_cons_get values (i + 1) b tail2 hdrop
          constructor
          · simp [resolve_setting, hget, hget2, hlen, fieldCount]
          · simpa [fieldCount, hlen] using hdrop2.symm
    | false =>
      cases hd : values.drop i with
      | nil => rw [hd] at h; simp [specField, hlen] at h
      | cons a tail =>
        rw [hd] at h
        obtain ⟨hget, hdrop⟩ := drop_eq_cons_get values i a tail hd
        simp [specField, hlen] at h
        obtain ⟨hv, hr⟩ := h
        subst hv; subst hr
        exact ⟨by simp [resolve_setting, hget, hlen, fieldCount], by
          simpa [fieldCount, hlen] using hdrop.symm⟩


theorem resolve_fields_of_specFields (settings : SettingsSection) (values : List PyVal)
    (i : Nat) (sec : SettingsSection) (rest : List PyVal)
    (h : specFields settings (values.drop i) = some (sec, rest)) :
    resolve_fields settings values i = some (sec, i + sectionCount settings)
    ∧ rest = values.drop (i + sectionCount settings) := by
  induction settings generalizing i sec rest with
  | nil =>
    simp [specFields] at h
    obtain ⟨hs, hr⟩ := h
    subst hs; subst hr
    simp [resolve_fields, sectionCount]
  | cons fd tl ih =>
    obtain ⟨name, d⟩ := fd
    cases hf : specField name d (values.drop i) with
    | none => simp [specFields, hf] at h
    | some pr =>
      obtain ⟨v, raws2⟩ := pr
      cases hrec : specFields tl raws2 with
      | none => simp [specFields, hf, hrec] at h
      | some pr2 =>
        obtain ⟨tail, raws3⟩ := pr2
        simp [specFields, hf, hrec] at h
        obtain ⟨hsec, hrest⟩ := h
        subst hsec; subst hrest
        obtain ⟨h1, h2⟩ := resolve_setting_of_specField name d values i v raws2 hf
        rw [h2] at hrec
        obtain ⟨h3, h4⟩ := ih (i + fieldCount d) tail raws3 hrec
        have hsc : sectionCount ((name, d) :: tl) = fieldCount d + sectionCount tl := by
          simp [sectionCount]
        have harith : i + fieldCount d + sectionCount tl = i + sectionCount ((name, d) :: tl) := by
          rw [hsc]; omega
        constructor
        · simp only [resolve_fields, h1, h3, harith]
        · rw [h4, harith]

theorem resolve_sections_of_specSections (config : Config) (values : List PyVal)
    (i : Nat) (r : Config) (rest : List PyVal)
    (h : specSections config (values.drop i) = some (r, rest)) :
    resolve_sections config values i = some (r, i + configCount config)
    ∧ rest = values.drop (i + configCount config) := by
  induction config generalizing i r rest with
  | nil =>
    simp [specSections] at h
    obtain ⟨hs, hr⟩ := h
    subst hs; subst hr
    simp [resolve_sections, configCount]
  | cons sc tl ih =>
    obtain ⟨name, settings⟩ := sc
    cases hf : specFields settings (values.drop i) with
    | none => simp [specSections, hf] at h
    | some pr =>
      obtain ⟨sec, raws2⟩ := pr
      cases hrec : specSections tl raws2 with
      | none => simp [specSections, hf, hrec] at h
      | some pr2 =>
        obtain ⟨tail, raws3⟩ := pr2
        simp [specSections, hf, hrec] at h
        obtain ⟨hsec, hrest⟩ := h
        subst hsec; subst hrest
        obtain ⟨h1, h2⟩ := resolve_fields_of_specFields settings values i sec raws2 hf
        rw [h2] at hrec
        obtain ⟨h3, h4⟩ := ih (i + sectionCount settings) tail raws3 hrec
        have hcc : configCount ((name, settings) :: tl)
            = sectionCount settings + configCount tl := by
          simp [configCount]
        have harith : i + sectionCount settings + configCount tl
            = i + configCount ((name, settings) :: tl) := by
          rw [hcc]; omega
        constructor
        · simp only [resolve_sections, h1, h3, harith]
        · rw [h4, harith]

theorem specFields_fst (settings : SettingsSection) (raws : List PyVal)
    (sec : SettingsSection) (rest : List PyVal)
    (h : specFields settings raws = some (sec, rest)) :
    sec.map Prod.fst = settings.map Prod.fst := by
  induction settings generalizing raws sec rest with
  | nil =>
    simp [specFields] at h
    simp [h.1]
  | cons fd tl ih =>
    obtain ⟨name, d⟩ := fd
    cases hf : specField name d raws with
    | none => simp [specFields, hf] at h
    | some pr =>
      obtain ⟨v, raws2⟩ := pr
      cases hrec : specFields tl raws2 with
      | none => simp [specFields, hf, hrec] at h
      | some pr2 =>
        obtain ⟨tail, raws3⟩ := pr2
        simp [specFields, hf, hrec] at h
        obtain ⟨hsec, hrest⟩ := h
        subst hsec
        simp [ih raws2 tail raws3 hrec]

theorem specSections_shape (config : Config) (raws : List PyVal) (r : Config)
    (rest : List PyVal) (h : specSections config raws = some (r, rest)) :
    r.map Prod.fst = config.map Prod.fst
    ∧ List.Forall₂ (fun (a b : String × SettingsSection) =>
        a.2.map Prod.fst = b.2.map Prod.fst) r config := by
  induction config generalizing raws r rest with
  | nil =>
    simp [specSections] at h
    simp [h.1]
  | cons sc tl ih =>
    obtain ⟨name, settings⟩ := sc
    cases hf : specFields settings raws with
    | none => simp [specSections, hf] at h
    | some pr =>
      obtain ⟨sec, raws2⟩ := pr
      cases hrec : specSections tl raws2 with
      | none => simp [specSections, hf, hrec] at h
      | some pr2 =>
        obtain ⟨tail, raws3⟩ := pr2
        simp [specSections, hf, hrec] at h
        obtain ⟨hsec, hrest⟩ := h
        subst hsec
        obtain ⟨ih1, ih2⟩ := ih raws2 tail raws3 hrec
        constructor
        · simp [ih1]
        · exact List.Forall₂.cons (specFields_fst settings raws sec raws2 hf) ih2
/-! ## Claim C1: the Settings Resolver -/

/-- C1 counterexample: with the schema consisting of one color field and
a raw-value sequence of exactly the implied length whose single entry is
a dictionary without a hex key, the resolver raises (KeyError) instead
of reconstructing a tree, refuting the claim that EVERY raw-value
sequence of the implied length is resolved to a tree of the schema
shape (the claimed color rule maps a hex-dictionary to its hex entry
and any other raw value to itself, leaving no failing case). -/
theorem color_payload_counterexample :
    resolve_config [("sec", [("textcolor", PyVal.str "#000000")])] [PyVal.dict []]
      = Option.none
    ∧ [PyVal.dict []].length
        = configCount [("sec", [("textcolor", PyVal.str "#000000")])] :=
  ⟨rfl, by decide⟩

/-- C1 (corrected): on every raw-value sequence on which the claimed
per-field rules are defined (the compositional description specResolve
succeeds: at least the implied number of raw values, boolean fields fed
an absent value or a collection, color fields fed a hex-carrying
dictionary or a non-dictionary), the index-threading fold of
update_figure returns exactly the compositionally described tree: it
walks sections and fields in declared order, consumes one raw value per
boolean, number or string field and two consecutive raw values per
2-element-list field, resolves a boolean field to whether the raw
collection contains the marker on (absent or empty gives false) and a
color field to the hex entry of a dictionary payload or the raw value
itself, and the resulting tree has exactly the nested shape of the
schema: the same section names in order and, section by section, the
same field names in order. -/
theorem settings_resolver_fold_spec (config : Config) (values : List PyVal) (r : Config)
    (h : specResolve config values = some r) :
    resolve_config config values = some r
    ∧ r.map Prod.fst = config.map Prod.fst
    ∧ List.Forall₂ (fun (a b : String × SettingsSection) =>
        a.2.map Prod.fst = b.2.map Prod.fst) r config := by
  unfold specResolve at h
  cases hs : specSections config values with
  | none => rw [hs] at h; simp at h
  | some pr =>
    obtain ⟨r0, rest⟩ := pr
    rw [hs] at h
    simp at h
    subst h
    have hdrop : values.drop 0 = values := rfl
    obtain ⟨h1, _⟩ := resolve_sections_of_specSections config values 0 r0 rest
      (by rw [hdrop]; exact hs)
    obtain ⟨h2, h3⟩ := specSections_shape config values r0 rest hs
    exact ⟨by simp [resolve_config, h1], h2, h3⟩

/-- C1 witness: a concrete schema with an enum string, a number, a color
string, a boolean and a range field, resolved from a concrete raw-value
sequence. -/
theorem settings_resolver_fold_spec_witness :
    resolve_config cfgW valsW = some rW
    ∧ rW.map Prod.fst = cfgW.map Prod.fst
    ∧ List.Forall₂ (fun (a b : String × SettingsSection) =>
        a.2.map Prod.fst = b.2.map Prod.fst) rW cfgW :=
  settings_resolver_fold_spec cfgW valsW rW rfl

/-! ## Claim C2: alignment failures -/

theorem resolve_setting_bound (setting : String) (d : PyVal) (values : List PyVal)
    (i : Nat) (v : PyVal) (j : Nat)
    (h : resolve_setting setting d values i = some (v, j)) :
    j = i + fieldCount d ∧ j ≤ values.length := by
  cases hget : values[i]? with
  | none => simp [resolve_setting, hget] at h
  | some a =>
    have hi := get?_some_lt values i a hget
    cases d with
    | bool b =>
      simp only [resolve_setting, hget] at h
      cases hb : boolFieldValue a with
      | none => rw [hb] at h; simp at h
      | some bv =>
        rw [hb] at h
        simp at h
        obtain ⟨_, hj⟩ := h
        subst hj
        exact ⟨by simp [fieldCount], by omega⟩
    | str s =>
      cases hcol : strContains setting "color" with
      | false =>
        simp [resolve_setting, hget, hcol] at h
        obtain ⟨_, hj⟩ := h
        subst hj
        exact ⟨by simp [fieldCount], by omega⟩
      | true =>
        cases a with
        | dict kvs =>
          simp only [resolve_setting, hget, hcol] at h
          simp at h
          cases hx : dictGetOpt "hex" kvs with
          | none => rw [hx] at h; simp at h
          | some w =>
            rw [hx] at h
            simp at h
            obtain ⟨_, hj⟩ := h
            subst hj
            exact ⟨by simp [fieldCount], by omega⟩
        | null =>
          simp [resolve_setting, hget, hcol] at h
          obtain ⟨_, hj⟩ := h
          subst hj
          exact ⟨by simp [fieldCount], by omega⟩
        | bool b2 =>
          simp [resolve_setting, hget, hcol] at h
          obtain ⟨_, hj⟩ := h
          subst hj
          exact ⟨by simp [fieldCount], by omega⟩
        | num n =>
          simp [resolve_setting, hget, hcol] at h
          obtain ⟨_, hj⟩ := h
          subst hj
          exact ⟨by simp [fieldCount], by omega⟩
        | str s2 =>
          simp [resolve_setting, hget, hcol] at h
          obtain ⟨_, hj⟩ := h
          subst hj
          exact ⟨by simp [fieldCount], by omega⟩
        | list xs =>
          simp [resolve_setting, hget, hcol] at h
          obtain ⟨_, hj⟩ := h
          subst hj
          exact ⟨by simp [fieldCount], by omega⟩
    | num n =>
      simp [resolve_setting, hget] at h
      obtain ⟨_, hj⟩ := h
      subst hj
      exact ⟨by simp [fieldCount], by omega⟩
    | null =>
      simp [resolve_setting, hget] at h
      obtain ⟨_, hj⟩ := h
      subst hj
      exact ⟨by simp [fieldCount], by omega⟩
    | dict kvs =>
      simp [resolve_setting, hget] at h
      obtain ⟨_, hj⟩ := h
      subst hj
      exact ⟨by simp [fieldCount], by omega⟩
    | list xs =>
      cases hlen : (xs.length == 2) with
      | true =>
        simp only [resolve_setting, hget, hlen] at h
        simp at h
        cases hget2 : values[i+1]? with
        | none => rw [hget2] at h; simp at h
        | some b2 =>
          rw [hget2] at h
          simp at h
          obtain ⟨_, hj⟩ := h
          subst hj
          have hi2 := get?_some_lt values (i + 1) b2 hget2
          exact ⟨by simp [fieldCount, hlen], by omega⟩
      | false =>
        simp [resolve_setting, hget, hlen] at h
        obtain ⟨_, hj⟩ := h
        subst hj
        exact ⟨by simp [fieldCount, hlen], by omega⟩

theorem resolve_fields_bound (settings : SettingsSection) (values : List PyVal)
    (i : Nat) (sec : SettingsSection) (j : Nat)
    (h : resolve_fields settings values i = some (sec, j)) :
    j = i + sectionCount settings ∧ (i ≤ values.length → j ≤ values.length) := by
  induction settings generalizing i sec with
  | nil =>
    simp [resolve_fields] at h
    obtain ⟨_, hj⟩ := h
    subst hj
    exact ⟨by simp [sectionCount], fun hle => hle⟩
  | cons fd tl ih =>
    obtain ⟨name, d⟩ := fd
    cases hf : resolve_setting name d values i with
    | none => simp [resolve_fields, hf] at h
    | some pr =>
      obtain ⟨v, i2⟩ := pr
      cases hrec : resolve_fields tl values i2 with
      | none => simp [resolve_fields, hf, hrec] at h
      | some pr2 =>
        obtain ⟨tail, i3⟩ := pr2
        simp [resolve_fields, hf, hrec] at h
        obtain ⟨_, hj⟩ := h
        subst hj
        obtain ⟨hb1, hb2⟩ := resolve_setting_bound name d values i v i2 hf
        obtain ⟨hc1, hc2⟩ := ih i2 tail hrec
        have hsc : sectionCount ((name, d) :: tl) = fieldCount d + sectionCount tl := by
          simp [sectionCount]
        exact ⟨by rw [hsc]; omega, fun _ => hc2 hb2⟩

theorem resolve_sections_bound (config : Config) (values : List PyVal)
    (i : Nat) (r : Config) (j : Nat)
    (h : resolve_sections config values i = some (r, j)) :
    j = i + configCount config ∧ (i ≤ values.length → j ≤ values.length) := by
  induction config generalizing i r with
  | nil =>
    simp [resolve_sections] at h
    obtain ⟨_, hj⟩ := h
    subst hj
    exact ⟨by simp [configCount], fun hle => hle⟩
  | cons sc tl ih =>
    obtain ⟨name, settings⟩ := sc
    cases hf : resolve_fields settings values i with
    | none => simp [resolve_sections, hf] at h
    | some pr =>
      obtain ⟨sec, i2⟩ := pr
      cases hrec : resolve_sections tl values i2 with
      | none => simp [resolve_sections, hf, hrec] at h
      | some pr2 =>
        obtain ⟨tail, i3⟩ := pr2
        simp [resolve_sections, hf, hrec] at h
        obtain ⟨_, hj⟩ := h
        subst hj
        obtain ⟨hb1, hb2⟩ := resolve_fields_bound settings values i sec i2 hf
        obtain ⟨hc1, hc2⟩ := ih i2 tail hrec
        have hcc : configCount ((name, settings) :: tl)
            = sectionCount settings + configCount tl := by
          simp [configCount]
        exact ⟨by rw [hcc]; omega, fun hle => hc2 (hb2 hle)⟩

theorem resolve_setting_append (setting : String) (d : PyVal) (values extra : List PyVal)
    (i : Nat) (out : PyVal × Nat)
    (h : resolve_setting setting d values i = some out) :
    resolve_setting setting d (values ++ extra) i = some out := by
  cases hget : values[i]? with
  | none => simp [resolve_setting, hget] at h
  | some a =>
    have hi := get?_some_lt values i a hget
    have happ : (values ++ extra)[i]? = some a := by
      rw [get?_append_left values extra i hi, hget]
    cases d with
    | bool b =>
      simp only [resolve_setting, hget] at h
      simp only [resolve_setting, happ]
      exact h
    | str s =>
      simp only [resolve_setting, hget] at h
      simp only [resolve_setting, happ]
      exact h
    | num n =>
      simp only [resolve_setting, hget] at h
      simp only [resolve_setting, happ]
      exact h
    | null =>
      simp only [resolve_setting, hget] at h
      simp only [resolve_setting, happ]
      exact h
    | dict kvs =>
      simp only [resolve_setting, hget] at h
      simp only [resolve_setting, happ]
      exact h
    | list xs =>
      cases hlen : (xs.length == 2) with
      | true =>
        simp only [resolve_setting, hget, hlen, if_true] at h
        simp only [resolve_setting, happ, hlen, if_true]
        cases hget2 : values[i+1]? with
        | none => rw [hget2] at h; simp at h
        | some b2 =>
          have hi2 := get?_some_lt values (i + 1) b2 hget2
          have happ2 : (values ++ extra)[i+1]? = some b2 := by
            rw [get?_append_left values extra (i + 1) hi2, hget2]
          rw [hget2] at h
          rw [happ2]
          exact h
      | false =>
        simp only [resolve_setting, hget, hlen] at h
        simp only [resolve_setting, happ, hlen]
        exact h

theorem resolve_fields_append (settings : SettingsSection) (values extra : List PyVal)
    (i : Nat) (sec : SettingsSection) (j : Nat)
    (h : resolve_fields settings values i = some (sec, j)) :
    resolve_fields settings (values ++ extra) i = some (sec, j) := by
  induction settings generalizing i sec j with
  | nil =>
    simp [resolve_fields] at h
    obtain ⟨hs, hj⟩ := h
    subst hs; subst hj
    simp [resolve_fields]
  | cons fd tl ih =>
    obtain ⟨name, d⟩ := fd
    cases hf : resolve_setting name d values i with
    | none => simp [resolve_fields, hf] at h
    | some pr =>
      obtain ⟨v, i2⟩ := pr
      cases hrec : resolve_fields tl values i2 with
      | none => simp [resolve_fields, hf, hrec] at h
      | some pr2 =>
        obtain ⟨tail, i3⟩ := pr2
        simp [resolve_fields, hf, hrec] at h
        obtain ⟨hsec, hj⟩ := h
        subst hsec; subst hj
        have hf2 := resolve_setting_append name d values extra i (v, i2) hf
        have hrec2 := ih i2 tail i3 hrec
        simp [resolve_fields, hf2, hrec2]

theorem resolve_sections_append (config : Config) (values extra : List PyVal)
    (i : Nat) (r : Config) (j : Nat)
    (h : resolve_sections config values i = some (r, j)) :
    resolve_sections config (values ++ extra) i = some (r, j) := by
  induction config generalizing i r j with
  | nil =>
    simp [resolve_sections] at h
    obtain ⟨hs, hj⟩ := h
    subst hs; subst hj
    simp [resolve_sections]
  | cons sc tl ih =>
    obtain ⟨name, settings⟩ := sc
    cases hf : resolve_fields settings values i with
    | none => simp [resolve_sections, hf] at h
    | some pr =>
      obtain ⟨sec, i2⟩ := pr
      cases hrec : resolve_sections tl values i2 with
      | none => simp [resolve_sections, hf, hrec] at h
      | some pr2 =>
        obtain ⟨tail, i3⟩ := pr2
        simp [resolve_sections, hf, hrec] at h
        obtain ⟨hsec, hj⟩ := h
        subst hsec; subst hj
        have hf2 := resolve_fields_append settings values extra i sec i2 hf
        have hrec2 := ih i2 tail i3 hrec
        simp [resolve_sections, hf2, hrec2]

/-- C2 counterexample: a raw-value sequence LONGER than the count
implied by the schema (two raw values against a single boolean field)
does not make the Settings Resolver fail: the fold resolves the prefix,
silently ignores the extra raw value and returns a tree, refuting the
claim that every count mismatch raises. -/
theorem resolver_extra_values_counterexample :
    resolve_config cfgB [PyVal.list [], PyVal.null]
      = some [("s", [("flag", PyVal.bool false)])]
    ∧ [PyVal.list [], PyVal.null].length ≠ configCount cfgB :=
  ⟨rfl, by decide⟩

/-- C2 (corrected): the Settings Resolver fails loudly (IndexError,
Option.none) whenever the raw-value sequence is SHORTER than the count
implied by the schema traversal, and a LONGER sequence never misaligns:
the fold consumes exactly the implied prefix, producing the same tree
it produces on that prefix alone, with the extra raw values ignored. -/
theorem resolver_alignment (config : Config) (values : List PyVal) :
    (values.length < configCount config → resolve_config config values = Option.none)
    ∧ (∀ extra r, resolve_config config values = some r
        → resolve_config config (values ++ extra) = some r) := by
  constructor
  · intro hlt
    cases hs : resolve_sections config values 0 with
    | none => simp [resolve_config, hs]
    | some pr =>
      obtain ⟨r, j⟩ := pr
      obtain ⟨hb1, hb2⟩ := resolve_sections_bound config values 0 r j hs
      have hj := hb2 (Nat.zero_le _)
      omega
  · intro extra r hr
    cases hs : resolve_sections config values 0 with
    | none => simp [resolve_config, hs] at hr
    | some pr =>
      obtain ⟨r0, j⟩ := pr
      simp [resolve_config, hs] at hr
      subst hr
      have happ := resolve_sections_append config values extra 0 r0 j hs
      simp [resolve_config, happ]

/-- C2 witness: with the one-boolean-field schema, an empty raw-value
sequence makes the resolver fail, while an appended surplus value
leaves the resolved tree of the exact prefix unchanged. -/
theorem resolver_alignment_witness :
    resolve_config cfgB [] = Option.none
    ∧ resolve_config cfgB ([PyVal.list [PyVal.str "on"]] ++ [PyVal.num 3])
        = some [("s", [("flag", PyVal.bool true)])] := by
  constructor
  · exact (resolver_alignment cfgB []).1 (by decide)
  · exact (resolver_alignment cfgB [PyVal.list [PyVal.str "on"]]).2 [PyVal.num 3]
      [("s", [("flag", PyVal.bool true)])] rfl

/-! ## Claim C3: trace style import -/

/-- C3 counterexample: a payload decoding to the JSON number 42, which
is not an object, is NOT rejected: the import callback returns it and
the store becomes 42, different from its prior (object) contents,
refuting the claim that a decoded non-object value leaves the store
unchanged. -/
theorem upload_nonobject_counterexample :
    storeAfter (PyVal.dict []) (load_trace_styles b64id parse42 (some "data,42"))
      = PyVal.num 42
    ∧ PyVal.num 42 ≠ PyVal.dict [] :=
  ⟨rfl, fun hx => PyVal.noConfusion hx⟩

/-- C3 (corrected): the import is atomic but does not validate the
decoded shape: after the upload callback the store either still holds
exactly its prior contents (no partial merge), or holds exactly one
successfully decoded JSON value, wholesale; and whenever the JSON
decode fails the prior contents are kept. -/
theorem load_trace_styles_atomic (b64decode : String → Option String)
    (jsonLoads : String → Option PyVal) (contents : Option String) (prior : PyVal) :
    (storeAfter prior (load_trace_styles b64decode jsonLoads contents) = prior
      ∨ ∃ v, load_trace_styles b64decode jsonLoads contents
              = some (UploadResult.replace v)
          ∧ storeAfter prior (load_trace_styles b64decode jsonLoads contents) = v
          ∧ ∃ decoded, jsonLoads decoded = some v)
    ∧ (∀ ct pre payload decoded, contents = some ct → commaSplit ct = [pre, payload]
        → b64decode payload = some decoded → jsonLoads decoded = Option.none
        → storeAfter prior (load_trace_styles b64decode jsonLoads contents) = prior) := by
  constructor
  · cases hc : contents with
    | none => left; simp [load_trace_styles, storeAfter]
    | some s =>
      cases hsp : commaSplit s with
      | nil => left; simp [load_trace_styles, hsp, storeAfter]
      | cons x tl =>
        cases tl with
        | nil => left; simp [load_trace_styles, hsp, storeAfter]
        | cons y tl2 =>
          cases tl2 with
          | cons z tl3 => left; simp [load_trace_styles, hsp, storeAfter]
          | nil =>
            cases hb : b64decode y with
            | none => left; simp [load_trace_styles, hsp, hb, storeAfter]
            | some decoded =>
              cases hj : jsonLoads decoded with
              | none => left; simp [load_trace_styles, hsp, hb, hj, storeAfter]
              | some v =>
                right
                refine ⟨v, ?_, ?_, decoded, hj⟩
                · simp [load_trace_styles, hsp, hb, hj]
                · simp [load_trace_styles, hsp, hb, hj, storeAfter]
  · intro ct pre payload decoded hct hsplit hb hj
    subst hct
    simp [load_trace_styles, hsplit, hb, hj, storeAfter]

/-- C3 witness: a concrete undecodable payload leaves a concrete prior
store untouched. -/
theorem load_trace_styles_atomic_witness :
    storeAfter (PyVal.dict []) (load_trace_styles b64id parse42 (some "data,nope"))
      = PyVal.dict [] :=
  (load_trace_styles_atomic b64id parse42 (some "data,nope") (PyVal.dict [])).2
    "data,nope" "data" "nope" "nope" rfl rfl rfl rfl

/-! ## Claim C4: stale chart clicks -/

/-- C4: at the same stale-click input (a click on curve index 0 while
the rendered figure holds an empty trace list), the legacy
GraphFormatter variant of toggle_trace_picker raises an IndexError
(Option.none), while the modular callback-registrar variant returns the
guarded no_update triple, leaving popover state, controls and selection
untouched, as the claim demands. -/
theorem stale_click_divergence :
    gf_toggle_trace_picker [] (some ⟨[⟨some 0⟩]⟩) (some (PyVal.str "line"))
        [("display", PyVal.str "none")] (FigObj.withData []) [] (some "figure")
      = Option.none
    ∧ toggle_trace_picker [] (some ⟨[⟨some 0⟩]⟩) (some (PyVal.str "line"))
        [("display", PyVal.str "none")] (FigObj.withData []) [] (some "figure")
      = some (Upd.keep, Upd.keep, Upd.keep) :=
  ⟨rfl, rfl⟩

/-! ## Claim C5: plot-type change while the popover is open -/

/-- C5 counterexample: with the style store holding the keys A then B
and B being the previously selected (and still selectable) trace, a
plot-type change does not preserve the selection: the transition
re-selects the FIRST store key A and derives the controls from the
style stored under A, refuting the claim that the current selection is
kept whenever it is still selectable. -/
theorem plot_type_change_counterexample :
    toggle_trace_picker [] Option.none (some (PyVal.str "scatter"))
        [("display", PyVal.str "block")] FigObj.missing [("A", []), ("B", [])]
        (some "properties-plot_type")
      = some (Upd.set [("display", PyVal.str "block")],
              Upd.set (get_style_controls_for_plot_type (PyVal.str "scatter") []),
              Upd.set (some "A"))
    ∧ ("A" : String) ≠ "B" :=
  ⟨rfl, by decide⟩

/-- C5 (corrected): on a plot-type change while the popover is open,
the state machine moves to the first key of the style store: it emits
the control set derived from the new plot type and the style stored
under that first key, and selects that first key, regardless of the
previous selection; when the store is empty the transition is a no-op
(every output no_update).  The stored style values themselves are not
touched, since the callback does not write the store. -/
theorem plot_type_change_first_key (config : Config) (pt : Option PyVal) (cs : StyleDict)
    (fig : FigObj)
    (hdisp : dictGetOpt "display" cs = some (PyVal.str "block")) :
    (∀ s0 st0 rest, s0 ≠ "" →
      toggle_trace_picker config Option.none pt cs fig ((s0, st0) :: rest)
          (some "properties-plot_type")
        = some (Upd.set cs,
                Upd.set (get_style_controls_for_plot_type (pt.getD PyVal.null) st0),
                Upd.set (some s0)))
    ∧ toggle_trace_picker config Option.none pt cs fig [] (some "properties-plot_type")
        = some (Upd.keep, Upd.keep, Upd.keep) := by
  constructor
  · intro s0 st0 rest hne
    have h0 : (s0 == "") = false := by
      simp [hne]
    simp [toggle_trace_picker, toggle_plot_type_branch, hdisp, h0]
  · simp [toggle_trace_picker, toggle_plot_type_branch, hdisp]

/-- C5 witness: concrete one-entry store. -/
theorem plot_type_change_first_key_witness :
    toggle_trace_picker [] Option.none (some (PyVal.str "scatter"))
        [("display", PyVal.str "block")] FigObj.missing
        [("C", [("color", PyVal.str "#000000")])] (some "properties-plot_type")
      = some (Upd.set [("display", PyVal.str "block")],
              Upd.set (get_style_controls_for_plot_type (PyVal.str "scatter")
                  [("color", PyVal.str "#000000")]),
              Upd.set (some "C")) :=
  (plot_type_change_first_key [] (some (PyVal.str "scatter"))
      [("display", PyVal.str "block")] FigObj.missing rfl).1
    "C" [("color", PyVal.str "#000000")] [] (by decide)

/-! ## Claim C6: trace-kind dispatch -/

/-- C6: the trace factory create_trace has no bar_grouped or
bar_stacked branch.  At the plot types the UI offers, line gives
lines+markers, scatter gives markers only, area gives a filled line
(baseline fill for the first data column, tonexty otherwise), but
bar_grouped and bar_stacked fall through to the default line branch
(lines+markers, NOT bar geometry), even though update_figure
simultaneously sets the grouped and stacked barmode for exactly these
two plot types; only the plot type bar, which the plot-type dropdown
never produces, yields bar geometry. -/
theorem bar_grouped_dispatch_bug :
    ((create_trace dfW "Series A" (PyVal.str "bar_grouped") []).map TraceSpec.isBarGeom
      = some false)
    ∧ ((create_trace dfW "Series A" (PyVal.str "bar_grouped") []).map TraceSpec.scatterMode
      = some (some "lines+markers"))
    ∧ ((create_trace dfW "Series A" (PyVal.str "bar_stacked") []).map TraceSpec.isBarGeom
      = some false)
    ∧ barmode_for (PyVal.str "bar_grouped") = some "group"
    ∧ barmode_for (PyVal.str "bar_stacked") = some "stack"
    ∧ barmode_for (PyVal.str "line") = Option.none
    ∧ ((create_trace dfW "Series A" (PyVal.str "bar") []).map TraceSpec.isBarGeom
      = some true)
    ∧ ((create_trace dfW "Series A" (PyVal.str "line") []).map TraceSpec.scatterMode
      = some (some "lines+markers"))
    ∧ ((create_trace dfW "Series A" (PyVal.str "scatter") []).map TraceSpec.scatterMode
      = some (some "markers"))
    ∧ ((create_trace dfW "Series A" (PyVal.str "area") []).map
        (fun t => (t.scatterMode, t.fillOf))
      = some (some "lines", some "tozeroy"))
    ∧ ((create_trace dfW "Series B" (PyVal.str "area") []).map TraceSpec.fillOf
      = some (some "tonexty"))
    ∧ ((create_trace dfW "Series A" (PyVal.str "wiggle") [("width", PyVal.num 9)]).map
        TraceSpec.lineOf
      = some (some ⟨PyVal.null, PyVal.num 9, PyVal.str "solid"⟩)) :=
  ⟨rfl, rfl, rfl, rfl, rfl, rfl, rfl, rfl, rfl, rfl, rfl, rfl⟩

/-! ## Claim C7: trace style store set operation -/

/-- C7 counterexample: with no configured plot type (so the line
default applies) and every incoming control value null, the record
written for the selected series contains marker_size 8 even though the
incoming marker size is null AND the active plot type line does not use
marker size, refuting the claim that line_width, marker_size, dash and
symbol are written only when the incoming value is non-null or the
plot type requires the field. -/
theorem update_trace_style_counterexample :
    update_trace_style [] PyVal.null PyVal.null PyVal.null PyVal.null PyVal.null
        (some "A") []
      = some [("A", [("color", PyVal.str "#636EFA"), ("opacity", PyVal.num 1),
                     ("line_width", PyVal.num 2), ("marker_size", PyVal.num 8),
                     ("dash", PyVal.str "solid")])]
    ∧ dictGetOpt "marker_size"
        [("color", PyVal.str "#636EFA"), ("opacity", PyVal.num 1),
         ("line_width", PyVal.num 2), ("marker_size", PyVal.num 8),
         ("dash", PyVal.str "solid")]
      = some (PyVal.num 8) :=
  ⟨rfl, rfl⟩

/-- C7 (corrected): update_trace_style is a no-op when no series (or a
falsy series name) is selected; otherwise it writes, for the selected
series only, a record that ALWAYS contains color (falsy picker payload
replaced by the default hex), opacity, line_width and marker_size (null
values replaced by the defaults 1.0, 2 and 8), contains dash exactly
when the plot type configured under plot_settings.type is line or area
(falsy dash replaced by solid), and contains symbol, always circle,
exactly when that configured plot type is scatter. -/
theorem update_trace_style_spec (config : Config) (color lw ms dash opacity : PyVal)
    (data : Store) :
    (update_trace_style config color lw ms dash opacity Option.none data = some data)
    ∧ (update_trace_style config color lw ms dash opacity (some "") data = some data)
    ∧ (∀ name, name ≠ "" → ∀ cv, pickerColorValue color = some cv →
        update_trace_style config color lw ms dash opacity (some name) data
          = some (dictSet name
              (style_record (configGet2 config "plot_settings" "type" (PyVal.str "line"))
                cv lw ms dash opacity) data))
    ∧ (∀ pt cv,
        dictGetOpt "color" (style_record pt cv lw ms dash opacity) = some cv
        ∧ dictGetOpt "opacity" (style_record pt cv lw ms dash opacity)
            = some (if isNull opacity then PyVal.num 1 else opacity)
        ∧ dictGetOpt "line_width" (style_record pt cv lw ms dash opacity)
            = some (if isNull lw then PyVal.num 2 else lw)
        ∧ dictGetOpt "marker_size" (style_record pt cv lw ms dash opacity)
            = some (if isNull ms then PyVal.num 8 else ms)
        ∧ dictGetOpt "dash" (style_record pt cv lw ms dash opacity)
            = (if isStrEq pt "line" || isStrEq pt "area"
               then some (if pyTruthy dash then dash else PyVal.str "solid")
               else Option.none)
        ∧ dictGetOpt "symbol" (style_record pt cv lw ms dash opacity)
            = (if isStrEq pt "scatter" then some (PyVal.str "circle")
               else Option.none)) := by
  refine ⟨rfl, rfl, ?_, ?_⟩
  · intro name hne cv hcv
    have h0 : (name == "") = false := by simp [hne]
    simp [update_trace_style, h0, hcv]
  · intro pt cv
    cases hline : (isStrEq pt "line" || isStrEq pt "area") with
    | true =>
      cases hscat : isStrEq pt "scatter" with
      | true => simp [style_record, hline, hscat, dictGetOpt]
      | false => simp [style_record, hline, hscat, dictGetOpt]
    | false =>
      cases hscat : isStrEq pt "scatter" with
      | true => simp [style_record, hline, hscat, dictGetOpt]
      | false => simp [style_record, hline, hscat, dictGetOpt]

/-- C7 witness: a configured scatter plot type with a concrete mix of
null and non-null control values. -/
theorem update_trace_style_spec_witness :
    update_trace_style [("plot_settings", [("type", PyVal.str "scatter")])]
        PyVal.null (PyVal.num 5) PyVal.null (PyVal.str "dot") PyVal.null (some "A") []
      = some (dictSet "A"
          (style_record
            (configGet2 [("plot_settings", [("type", PyVal.str "scatter")])]
              "plot_settings" "type" (PyVal.str "line"))
            (PyVal.str "#636EFA") (PyVal.num 5) PyVal.null (PyVal.str "dot") PyVal.null)
          []) :=
  ((update_trace_style_spec [("plot_settings", [("type", PyVal.str "scatter")])]
      PyVal.null (PyVal.num 5) PyVal.null (PyVal.str "dot") PyVal.null []).2.2.1)
    "A" (by decide) (PyVal.str "#636EFA") rfl

/-! ## Claim C8: defaults for missing style entries -/

/-- C8 counterexample: when building the trace for rendering, a series
with no store entry does NOT get the default color: create_trace reads
the color with no fallback, so the line color is None (the renderer
assigns its own), refuting the claimed full default record with color
#636EFA at the rendering site. -/
theorem missing_style_default_counterexample :
    ((create_trace dfW "Series A" (PyVal.str "line") []).map
        (fun t => t.lineOf.map LineProps.color)
      = some (some PyVal.null))
    ∧ PyVal.null ≠ PyVal.str "#636EFA" :=
  ⟨rfl, fun hx => PyVal.noConfusion hx⟩

/-- C8 (corrected): for a series with no store entry, the style
CONTROLS are pre-filled with color #636EFA, opacity 1.0, dash solid and
a width of 2 for line and area, 8 for scatter (as marker size) and 0
for bar (as border width); no symbol control exists for any plot type.
When BUILDING the trace, the defaults applied are opacity 1.0, width 2
(line), 8 (scatter marker size) and dash solid, but no color default is
applied (the color stays None) and no symbol is set at all. -/
theorem style_defaults_spec (df : DataFrame) (col : String) :
    get_style_controls_for_plot_type (PyVal.str "line") []
      = ⟨PyVal.str "#636EFA", PyVal.num 1, "Line Width", PyVal.num 2, true,
         PyVal.str "solid", true⟩
    ∧ get_style_controls_for_plot_type (PyVal.str "area") []
      = ⟨PyVal.str "#636EFA", PyVal.num 1, "Line Width", PyVal.num 2, true,
         PyVal.str "solid", true⟩
    ∧ get_style_controls_for_plot_type (PyVal.str "scatter") []
      = ⟨PyVal.str "#636EFA", PyVal.num 1, "Marker Size", PyVal.num 8, true,
         PyVal.str "solid", false⟩
    ∧ get_style_controls_for_plot_type (PyVal.str "bar") []
      = ⟨PyVal.str "#636EFA", PyVal.num 1, "Border Width", PyVal.num 0, true,
         PyVal.str "solid", false⟩
    ∧ ((create_trace df col (PyVal.str "line") []).map (fun t => (t.opacity, t.lineOf))
      = some (PyVal.num 1, some ⟨PyVal.null, PyVal.num 2, PyVal.str "solid"⟩))
    ∧ ((create_trace df col (PyVal.str "scatter") []).map
        (fun t => (t.opacity, t.markerOf))
      = some (PyVal.num 1, some ⟨PyVal.null, PyVal.num 8, PyVal.num 0⟩)) :=
  ⟨rfl, rfl, rfl, rfl, rfl, rfl⟩

/-! ## Claim C9: builder determinism -/

/-- C9: the chart specification builder is a pure function of the
resolved settings, the trace style store, the selected columns and the
data source: any two raw-input configurations that resolve to the same
ResolvedSettings produce, with the same store, columns and data,
exactly the same figure and stored configuration; in particular two
invocations on identical inputs agree. -/
theorem builder_determinism (c1 c2 : Config) (v1 v2 : List PyVal)
    (cols : List String) (props : Store) (df : DataFrame)
    (h : resolve_config c1 v1 = resolve_config c2 v2) :
    update_figure c1 v1 cols props df = update_figure c2 v2 cols props df := by
  unfold update_figure
  rw [h]

/-- C9 witness: two schemas differing only in a default value resolve
identically and yield identical builder output. -/
theorem builder_determinism_witness :
    update_figure [("s", [("a", PyVal.num 1)])] [PyVal.num 5] [] [] emptyFrame
      = update_figure [("s", [("a", PyVal.num 2)])] [PyVal.num 5] [] [] emptyFrame :=
  builder_determinism [("s", [("a", PyVal.num 1)])] [("s", [("a", PyVal.num 2)])]
    [PyVal.num 5] [PyVal.num 5] [] [] emptyFrame rfl

/-! ## Claim C10: failed CSV loads -/

/-- C10: when reading the CSV raises, load_data returns the empty frame
with zero rows and zero columns; the dummy frame it generates for the
error report is discarded, so callers see no column names at all. -/
theorem load_data_empty_on_error (readCsv : String → Option DataFrame)
    (file_path : String) (h : readCsv file_path = Option.none) :
    (load_data readCsv file_path).columns = []
    ∧ (load_data readCsv file_path).index = []
    ∧ load_data readCsv file_path ≠ generate_dummy_data 50 10 := by
  have hd : load_data readCsv file_path = emptyFrame := by
    unfold load_data
    rw [h]
  refine ⟨by rw [hd]; rfl, by rw [hd]; rfl, ?_⟩
  rw [hd]
  intro hc
  have hlen : emptyFrame.columns.length = (generate_dummy_data 50 10).columns.length := by
    rw [hc]
  revert hlen
  decide

/-- C10 witness: a concrete always-failing reader. -/
theorem load_data_empty_on_error_witness :
    (load_data (fun _ => Option.none) "data.csv").columns = []
    ∧ (load_data (fun _ => Option.none) "data.csv").index = []
    ∧ load_data (fun _ => Option.none) "data.csv" ≠ generate_dummy_data 50 10 :=
  load_data_empty_on_error (fun _ => Option.none) "data.csv" rfl

end GraphFormatter
